import Mathlib

/-!
Verification of the Homesfy chat-widget runtime and lead API.

The definitions below are a shallow embedding of the JavaScript sources:

* `apps/widget/src/widget.jsx` — theme fetching/caching (`fetchWidgetTheme`),
  the mount-controller instance (`updateTheme`, `startConfigPolling`,
  `destroy`), the singleton/reentrancy guards of `init`/`mountWidget`, the
  API-base-URL resolution in `init`, and the final theme merge in `init`.
* `apps/api/src/routes/leads.js` — `normalizeBhkPreference` and the
  `POST /api/leads` handler.
* `apps/api/src/middleware/auth.js` — `requireApiKey`, and the
  `POST /api/widget-config/:projectId` route that it protects.

JavaScript values that the embedded code inspects are modelled by the
`Json` type below (JSON values plus `undefined`; JSON arrays are not
modelled because none of the embedded code paths inspect arrays).
Equality of objects is modelled structurally; the source code only ever
compares primitive (string/number) fields, where JS `===` coincides with
structural equality.
-/

mutual
inductive Json where
  | undefVal : Json
  | null : Json
  | bool (b : Bool) : Json
  | num (q : ℚ) : Json
  | str (s : String) : Json
  | obj (fields : JFields) : Json
deriving DecidableEq, Repr

inductive JFields where
  | nil : JFields
  | cons (key : String) (value : Json) (rest : JFields) : JFields
deriving DecidableEq, Repr
end

def JFields.ofList : List (String × Json) → JFields
  | [] => .nil
  | (k, v) :: rest => .cons k v (JFields.ofList rest)

/-- JavaScript truthiness of a value. -/
def Json.truthy : Json → Bool
  | .undefVal => false
  | .null => false
  | .bool b => b
  | .num q => decide (q ≠ 0)
  | .str s => decide (s ≠ "")
  | .obj _ => true

/-- Property read on an object's own fields; `undefined` when absent
(first binding wins, as in a JS object where duplicate literal keys have
already been collapsed). -/
def JFields.lookupJs : JFields → String → Json
  | .nil, _ => .undefVal
  | .cons k v rest, key => if k = key then v else rest.lookupJs key

/-- JS member access `value.key`: `undefined` on non-objects (the embedded
code only reads properties after a truthiness guard, so the `null.key`
TypeError case is unreachable there). -/
def Json.get : Json → String → Json
  | .obj fs, key => fs.lookupJs key
  | _, _ => .undefVal

/-- JS `a || b`. -/
def jsOr (a b : Json) : Json := if a.truthy then a else b

def JFields.keys : JFields → List String
  | .nil => []
  | .cons k _ rest => k :: rest.keys

def Json.keysOf : Json → List String
  | .obj fs => fs.keys
  | _ => []

def JFields.hasKey (fs : JFields) (k : String) : Bool := (fs.lookupJs k) != .undefVal

/-- Substring containment on the character level (JS `includes`). -/
def containsSub : List Char → List Char → Bool
  | [], sub => sub.isEmpty
  | c :: rest, sub => sub.isPrefixOf (c :: rest) || containsSub rest sub

/-- JS `s.trim()` (ASCII whitespace; the embedded inputs are ASCII). -/
def jsTrim (s : String) : String :=
  String.mk (((s.data.dropWhile Char.isWhitespace).reverse.dropWhile Char.isWhitespace).reverse)

def strEndsWith (s suf : String) : Bool := suf.data.isSuffixOf s.data

def strDropRight (s : String) (n : ℕ) : String :=
  String.mk (s.data.take (s.data.length - n))

mutual
/-- Normal form of a value under `JSON.stringify`: object fields whose
value is `undefined` are omitted from the serialization, recursively.
Two values in this fragment produce the same `JSON.stringify` string iff
their normal forms are equal (serialization is injective on the rest of
the fragment, and field order is significant). -/
def Json.serNF : Json → Json
  | .obj fs => .obj fs.serNF
  | j => j

def JFields.serNF : JFields → JFields
  | .nil => .nil
  | .cons k v rest =>
      if v = .undefVal then rest.serNF else .cons k v.serNF rest.serNF
end

mutual
/-- Modelled from the spec: the "normalized (undefined/null-stripped)"
form of a theme that §4.4 and the claims use as the comparison key —
object fields whose value is `undefined` or `null` are removed,
recursively.  This is the spec's notion, stated for comparison with the
code's actual change detection; the code itself uses `Json.serNF`
(raw `JSON.stringify`), which keeps `null` fields. -/
def Json.stripNullUndef : Json → Json
  | .obj fs => .obj fs.stripNullUndef
  | j => j

def JFields.stripNullUndef : JFields → JFields
  | .nil => .nil
  | .cons k v rest =>
      if v = .undefVal ∨ v = .null then rest.stripNullUndef
      else .cons k v.stripNullUndef rest.stripNullUndef
end

/-! ## Config Fetcher (`fetchWidgetTheme`, widget.jsx lines 54-141) -/

structure CacheEntry where
  data : Json
  timestamp : ℕ
deriving DecidableEq, Repr

/-- The module-level `themeCache` Map, keyed by `apiBaseUrl:projectId`. -/
def ThemeCache := List (String × CacheEntry)

def cacheLookup (c : ThemeCache) (k : String) : Option CacheEntry :=
  match c with
  | [] => none
  | (k', e) :: rest => if k' = k then some e else cacheLookup rest k

def cacheErase (c : ThemeCache) (k : String) : ThemeCache :=
  match c with
  | [] => []
  | (k', e) :: rest => if k' = k then cacheErase rest k else (k', e) :: cacheErase rest k

def cacheSet (c : ThemeCache) (k : String) (e : CacheEntry) : ThemeCache :=
  (k, e) :: cacheErase c k

def CACHE_DURATION_MS : ℕ := 1000

def CONFIG_POLL_INTERVAL_MS : ℕ := 3000

/-- Outcome of the `fetch` call inside `fetchWidgetTheme`: the promise
rejects (network error or abort-on-timeout), or a response arrives with
an `ok` flag and a body that either parses as JSON or does not. -/
inductive FetchOutcome where
  | netError : FetchOutcome
  | resp (ok : Bool) (body : Option Json) : FetchOutcome
deriving DecidableEq, Repr

def FetchOutcome.isError : FetchOutcome → Bool
  | .netError => true
  | .resp ok body => !ok || body.isNone

/-- widget.jsx lines 105-122: convert snake_case to camelCase, applied
only when the body has a truthy `agent_name` and no truthy `agentName`. -/
def normalizeSnakeTheme (data : Json) : Json :=
  if data.truthy ∧ (data.get "agent_name").truthy ∧ ¬(data.get "agentName").truthy then
    .obj (JFields.ofList
      [ ("projectId", jsOr (data.get "project_id") (data.get "projectId"))
      , ("agentName", jsOr (data.get "agent_name") (data.get "agentName"))
      , ("avatarUrl", jsOr (data.get "avatar_url") (data.get "avatarUrl"))
      , ("primaryColor", jsOr (data.get "primary_color") (data.get "primaryColor"))
      , ("followupMessage", jsOr (data.get "followup_message") (data.get "followupMessage"))
      , ("bhkPrompt", jsOr (data.get "bhk_prompt") (data.get "bhkPrompt"))
      , ("inventoryMessage", jsOr (data.get "inventory_message") (data.get "inventoryMessage"))
      , ("phonePrompt", jsOr (data.get "phone_prompt") (data.get "phonePrompt"))
      , ("thankYouMessage", jsOr (data.get "thank_you_message") (data.get "thankYouMessage"))
      , ("bubblePosition", jsOr (data.get "bubble_position") (data.get "bubblePosition"))
      , ("autoOpenDelayMs", jsOr (data.get "auto_open_delay_ms") (data.get "autoOpenDelayMs"))
      , ("welcomeMessage", jsOr (data.get "welcome_message") (data.get "welcomeMessage"))
      , ("propertyInfo", jsOr (jsOr (data.get "property_info") (data.get "propertyInfo")) (.obj .nil))
      ])
  else data

/-- The `try` block of `fetchWidgetTheme` (lines 83-140): throw on `!ok`
or on a JSON parse failure, both caught and collapsed to `({}, cache
unchanged)`; on success, normalize, write the cache entry, return. -/
def fetchAttempt (cache : ThemeCache) (nowStore : ℕ) (key : String)
    (outcome : FetchOutcome) : Json × ThemeCache :=
  match outcome with
  | .netError => (.obj .nil, cache)
  | .resp ok body =>
      if ok then
        match body with
        | none => (.obj .nil, cache)
        | some data =>
            let d := normalizeSnakeTheme data
            (d, cacheSet cache key ⟨d, nowStore⟩)
      else (.obj .nil, cache)

/-- Function `fetchWidgetTheme(apiBaseUrl, projectId, forceRefresh)`, widget.jsx
lines 64-141, as a pure function of the cache state, the two `Date.now()`
readings (`now` at the freshness check, `nowStore` at the cache write),
the `widget_cache_bust` URL parameter, and the network outcome. -/
def fetchWidgetTheme (cache : ThemeCache) (now nowStore : ℕ)
    (apiBaseUrl projectId : String) (forceRefresh urlCacheBust : Bool)
    (outcome : FetchOutcome) : Json × ThemeCache :=
  let cacheBust := urlCacheBust || forceRefresh
  let key := apiBaseUrl ++ ":" ++ projectId
  if cacheBust then
    fetchAttempt (cacheErase cache key) nowStore key outcome
  else
    match cacheLookup cache key with
    | some e =>
        if now - e.timestamp < CACHE_DURATION_MS then (e.data, cache)
        else fetchAttempt cache nowStore key outcome
    | none => fetchAttempt cache nowStore key outcome

/-- Predicate: `true` when the call is answered from a fresh cache entry and no
fetch is performed at all. -/
def fetchServedFromCache (cache : ThemeCache) (now : ℕ)
    (apiBaseUrl projectId : String) (forceRefresh urlCacheBust : Bool) : Bool :=
  !(urlCacheBust || forceRefresh) &&
    match cacheLookup cache (apiBaseUrl ++ ":" ++ projectId) with
    | some e => decide (now - e.timestamp < CACHE_DURATION_MS)
    | none => false

/-! ## `instance.updateTheme` (widget.jsx lines 322-348) -/

structure UpdSt where
  theme : Json
  renders : ℕ
deriving DecidableEq, Repr

/-- Method `instance.updateTheme(newTheme)`: guarded by the truthiness of
`newTheme`; `currentTheme` is `currentProps.theme || {}`; `hasChanges`
is four strict field comparisons or-ed with raw `JSON.stringify`
inequality (modelled by `Json.serNF`); on change, `currentProps.theme`
is replaced and `root.render` is invoked once (counted in `renders`). -/
def updateTheme (s : UpdSt) (newTheme : Json) : UpdSt :=
  if newTheme.truthy then
    let ct := if s.theme.truthy then s.theme else .obj .nil
    if newTheme.get "agentName" ≠ ct.get "agentName"
        ∨ newTheme.get "avatarUrl" ≠ ct.get "avatarUrl"
        ∨ newTheme.get "primaryColor" ≠ ct.get "primaryColor"
        ∨ newTheme.get "welcomeMessage" ≠ ct.get "welcomeMessage"
        ∨ newTheme.serNF ≠ ct.serNF then
      { theme := newTheme, renders := s.renders + 1 }
    else s
  else s

/-! ## Final theme merge in `init` (widget.jsx lines 677-684) -/

/-- JS object-literal / spread insertion: an existing key is updated in
place, a new key is appended. -/
def JFields.setKey : JFields → String → Json → JFields
  | .nil, k, v => .cons k v .nil
  | .cons k' v' rest, k, v =>
      if k' = k then .cons k' v rest else .cons k' v' (rest.setKey k v)

def JFields.spread : JFields → JFields → JFields
  | acc, .nil => acc
  | acc, .cons k v rest => JFields.spread (acc.setKey k v) rest

/-- Spread `{...src}` contribution of a value: objects contribute their own
fields; `null`/`undefined`/primitives contribute nothing (the merge in
`init` only ever spreads theme objects). -/
def spreadJson (acc : JFields) (src : Json) : JFields :=
  match src with
  | .obj fs => acc.spread fs
  | _ => acc

/-- The `theme` object built in `init`:
`{ ...remoteTheme, ...themeOverrides, propertyInfo: detected-or-remote }`
where the detected page property info wins when it is a truthy value with
at least one key, else `remoteTheme?.propertyInfo || {}`. -/
def initFinalTheme (remoteTheme themeOverrides detected : Json) : Json :=
  let merged := spreadJson (spreadJson .nil remoteTheme) themeOverrides
  let pInfo :=
    if detected.truthy ∧ 0 < detected.keysOf.length then detected
    else jsOr (remoteTheme.get "propertyInfo") (.obj .nil)
  .obj (merged.setKey "propertyInfo" pInfo)

/-! ## API base URL resolution in `init` (widget.jsx lines 552-606) -/

def strContains (s sub : String) : Bool := containsSub s.data sub.data

/-- Loopback test `url.includes('localhost') || url.includes('127.0.0.1')`. -/
def isLoopbackUrl (u : String) : Bool :=
  strContains u "localhost" || strContains u "127.0.0.1"

/-- Truthiness of an optional string (`none` models `undefined`/`null`). -/
def jsStrTruthy : Option String → Bool
  | some s => s ≠ ""
  | none => false

def urlTruthyAndLoopback : Option String → Bool
  | some u => (u ≠ "" : Bool) && isLoopbackUrl u
  | none => false

/-- Normalization `apiBaseUrl.replace(/\/api\/?$/, '').replace(/\/$/, '')`. -/
def normApiUrl (u : String) : String :=
  let u1 :=
    if strEndsWith u "/api/" then strDropRight u 5
    else if strEndsWith u "/api" then strDropRight u 4
    else u
  if strEndsWith u1 "/" then strDropRight u1 1 else u1

/-- widget.jsx lines 552-606: the checks and rewrites applied to the
configured API base URL (`url0` is the result of the
options/attribute/env/global `||` chain; `none` models a falsy result),
as a function of the hosting page's `location.hostname` and
`location.protocol`. -/
def resolveApiBaseUrl (url0 : Option String) (hostname protocol : String) :
    Option String :=
  let url1 :=
    if !jsStrTruthy url0 then
      let isLocalDev := hostname = "localhost" || hostname = "127.0.0.1"
        || strContains hostname "localhost" || hostname = ""
      if isLocalDev && protocol = "http:" then some "http://localhost:4000" else url0
    else url0
  let isActuallyLocalhost :=
    hostname = "localhost" || hostname = "127.0.0.1" || hostname = ""
  let url2 :=
    if !isActuallyLocalhost && urlTruthyAndLoopback url1 then none else url1
  let url3 :=
    if protocol = "https:" && urlTruthyAndLoopback url2 then none else url2
  match url3 with
  | some u => if u = "" then some "" else some (normApiUrl u)
  | none => none

/-! ## Singleton / reentrancy guard of `init` and `mountWidget`
(widget.jsx lines 189-230, 482-487, 490-524, 736, 743, 752)

One page is modelled as a transition system.  Each `init()` caller is a
coroutine whose synchronous segments between `await` points are atomic
steps, which is exactly the browser's single-threaded event-loop
semantics.  The segments are: the entry checks up to setting
`initInProgress` (lines 494-524, one synchronous block on the path that
grabs the flag), one wake-up of the 100 ms wait loop (lines 514-521 plus
the flag grab at 524 when the loop exits), the synchronous body of
`mountWidget` (lines 198-487, atomic when `document.body` exists), and
the resumption that clears `initInProgress` (line 736, or 743/752 on
failure).  A mount attempt can succeed, throw before the host element is
appended, or throw after it (React render failure); `MountOutcome`
covers the three. -/

inductive MountOutcome where
  | ok : MountOutcome
  | failEarly : MountOutcome
  | failLate : MountOutcome
deriving DecidableEq, Repr

/-- Phases `done r` / `postMount r` carry the caller's result: `some ()` is the
live registry instance, `none` the no-op dummy instance. -/
inductive CallerPhase where
  | start : CallerPhase
  | waiting : CallerPhase
  | preMount : CallerPhase
  | postMount (r : Option Unit) : CallerPhase
  | done (r : Option Unit) : CallerPhase
deriving DecidableEq, Repr

structure InitSys where
  hosts : ℕ
  registryFull : Bool
  initInProgress : Bool
  callers : List CallerPhase
deriving DecidableEq, Repr

/-- One atomic event-loop step of caller `i` (with `mo` resolving the
nondeterminism of a mount attempt).  A caller index out of range, or a
caller that is already `done`, leaves the state unchanged. -/
def initStep (s : InitSys) (i : ℕ) (mo : MountOutcome) : InitSys :=
  match s.callers[i]? with
  | none => s
  | some ph =>
    match ph with
    | .start =>
        if s.registryFull then { s with callers := s.callers.set i (.done (some ())) }
        else if s.initInProgress then { s with callers := s.callers.set i .waiting }
        else { s with initInProgress := true, callers := s.callers.set i .preMount }
    | .waiting =>
        if s.initInProgress then s
        else if s.registryFull then { s with callers := s.callers.set i (.done (some ())) }
        else { s with initInProgress := true, callers := s.callers.set i .preMount }
    | .preMount =>
        if s.registryFull then { s with callers := s.callers.set i (.postMount (some ())) }
        else if 1 ≤ s.hosts then { s with callers := s.callers.set i (.postMount none) }
        else
          match mo with
          | .ok => { s with hosts := s.hosts + 1, registryFull := true,
                            callers := s.callers.set i (.postMount (some ())) }
          | .failEarly => { s with callers := s.callers.set i (.postMount none) }
          | .failLate => { s with hosts := s.hosts + 1,
                                  callers := s.callers.set i (.postMount none) }
    | .postMount r => { s with initInProgress := false, callers := s.callers.set i (.done r) }
    | .done _ => s

def initRun (s : InitSys) : List (ℕ × MountOutcome) → InitSys
  | [] => s
  | a :: rest => initRun (initStep s a.1 a.2) rest

/-- A freshly loaded page with `n` pending `init()` callers: no host
element, empty `mountedWidgets` registry, `initInProgress` false. -/
def initSysStart (n : ℕ) : InitSys :=
  ⟨0, false, false, List.replicate n .start⟩

/-! ## Polling timers across mount/destroy cycles
(widget.jsx lines 316, 349-437, 438-448, 472-479, 482-485)

Each call of `mountWidget` that actually mounts creates one instance
closure with its own `configPollInterval` slot and immediately calls
`instance.startConfigPolling()`.  `PollWorld.instances` holds that slot
for every instance closure created so far (`true` = a live `setInterval`
timer); destroyed closures keep their entry because a timer that was
never cleared keeps running and keeps the closure alive. -/

structure PollWorld where
  instances : List Bool
  registry : Option ℕ
  domHost : Bool
deriving DecidableEq, Repr

/-- Number of live config-polling intervals on the page. -/
def activeIntervals (w : PollWorld) : ℕ := (w.instances.filter id).length

/-- Method `instance.startConfigPolling()` of instance `idx` (lines 349-430):
a no-op when its `configPollInterval` is already set, else one
`setInterval` timer is created. -/
def startConfigPollingW (w : PollWorld) (idx : ℕ) : PollWorld :=
  match w.instances[idx]? with
  | some true => w
  | some false => { w with instances := w.instances.set idx true }
  | none => w

/-- Method `instance.stopConfigPolling()` (lines 431-437): `clearInterval` and
null the handle when set. -/
def stopConfigPollingW (w : PollWorld) (idx : ℕ) : PollWorld :=
  match w.instances[idx]? with
  | some true => { w with instances := w.instances.set idx false }
  | _ => w

/-- The `destroy` that is actually in effect.  The instance object
literal (lines 318-480) defines the key `destroy` twice — lines 438-448
and lines 472-479 — and in a JS object literal the second duplicate key
wins.  The effective `destroy` therefore runs lines 472-479: unmount the
React root, delete the registry entry, remove the host element — and it
never calls `stopConfigPolling`, so `instances` is untouched. -/
def instanceDestroy (w : PollWorld) (_idx : ℕ) : PollWorld :=
  { w with registry := none, domHost := false }

/-- The first, shadowed `destroy` definition (lines 438-448), which is
what the spec describes: stop polling, then unmount, deregister and
detach. -/
def instanceDestroyShadowed (w : PollWorld) (idx : ℕ) : PollWorld :=
  instanceDestroy (stopConfigPollingW w idx) idx

/-- Function `mountWidget` as far as timers are concerned (lines 198-230 guards,
316, 482-485): an existing registry instance or an existing DOM host
short-circuits; otherwise a new instance closure is created with
`configPollInterval = null`, registered, and `startConfigPolling()` is
called on it.  Returns the index of the instance handed back to the
caller (`none` = the no-op dummy instance). -/
def mountWidgetW (w : PollWorld) : PollWorld × Option ℕ :=
  match w.registry with
  | some i => (w, some i)
  | none =>
    if w.domHost then (w, none)
    else
      let idx := w.instances.length
      let w1 : PollWorld := ⟨w.instances ++ [false], some idx, true⟩
      (startConfigPollingW w1 idx, some idx)

/-- The empty page. -/
def pollWorld0 : PollWorld := ⟨[], none, false⟩

/-! ## `POST /api/leads` (apps/api/src/routes/leads.js)

`sanitizeMicrosite`, `sanitizeMetadata`, `sanitizeConversation`
(utils/sanitize.js) and `normalizePhone` (utils/phoneValidation.js) are
collaborator modules outside the embedded route; they enter as function
parameters, so every theorem below holds for any implementation of them.
`jsNumber` is the JS `Number()` coercion on strings, likewise a
parameter. -/

/-- A JS value in the `bhk` position of the request body: absent,
`null`, a finite number, a non-finite number (NaN/±Infinity), or a
string. -/
inductive BhkVal where
  | missing : BhkVal
  | jnull : BhkVal
  | num (q : ℚ) : BhkVal
  | nan : BhkVal
  | str (s : String) : BhkVal
deriving DecidableEq, Repr

/-- JS `Math.round`: half-integers round toward +∞. -/
def jsRound (q : ℚ) : ℤ := ⌊q + 1 / 2⌋

structure BhkNorm where
  type : String
  numeric : Option ℤ
deriving DecidableEq, Repr

def SPECIAL_BHK_MAPPINGS : List (String × BhkNorm) :=
  [ ("duplex", ⟨"Duplex", none⟩)
  , ("justbrowsing", ⟨"Just Browsing", none⟩)
  , ("justlooking", ⟨"Just Browsing", none⟩)
  , ("other", ⟨"Other", none⟩)
  , ("yettodecide", ⟨"Yet to decide", none⟩)
  ]

/-- Key normalization `String(value).toLowerCase().replace(/[^a-z0-9]/g, "")` (ASCII case
mapping; the inputs the route sees are ASCII). -/
def normalizeKey (s : String) : String :=
  String.mk ((s.data.map Char.toLower).filter
    (fun c => ('a' ≤ c ∧ c ≤ 'z') ∨ ('0' ≤ c ∧ c ≤ '9')))

/-- Digit match `trimmed.match(/(\d+)/)`: the first maximal run of decimal digits. -/
def firstDigitRun : List Char → Option (List Char)
  | [] => none
  | c :: rest =>
      if c.isDigit then some (c :: rest.takeWhile Char.isDigit)
      else firstDigitRun rest

def digitsToNat (l : List Char) : ℕ :=
  l.foldl (fun acc c => acc * 10 + (c.toNat - 48)) 0

/-- leads.js lines 67-72: classification of the rounded numeric `bhk`
(the `numericValue === 0` early return has already fired, so a rounded
value of 0 lands in "Other"). -/
def classifyRoundedBhk (r : ℤ) : BhkNorm :=
  if 1 ≤ r ∧ r ≤ 4 then ⟨toString r ++ " BHK", some r⟩
  else ⟨"Other", some r⟩

/-- Function `normalizeBhkPreference({bhk, bhkType})`, leads.js lines 58-104.
`bhkType` is `none` for `undefined`/`null` and otherwise carries the
`String()`-coerced value.  The numeric `bhk` branch runs when `bhk` is
neither `undefined`, `null` nor `""` and `Number(bhk)` is finite; a
non-finite coercion falls through to the `bhkType` branch. -/
def normalizeBhkPreference (jsNumber : String → Option ℚ)
    (bhk : BhkVal) (bhkType : Option String) : Option BhkNorm :=
  let fromBhk : Option BhkNorm :=
    match bhk with
    | .missing => none
    | .jnull => none
    | .nan => none
    | .num q =>
        if q = 0 then some ⟨"Yet to decide", none⟩ else some (classifyRoundedBhk (jsRound q))
    | .str s =>
        if s = "" then none
        else
          match jsNumber s with
          | some q =>
              if q = 0 then some ⟨"Yet to decide", none⟩
              else some (classifyRoundedBhk (jsRound q))
          | none => none
  match fromBhk with
  | some r => some r
  | none =>
    match bhkType with
    | none => none
    | some t0 =>
      if t0 = "" then none
      else
        let trimmed := jsTrim t0
        if trimmed = "" then none
        else
          let compactKey := normalizeKey trimmed
          match SPECIAL_BHK_MAPPINGS.lookup compactKey with
          | some m => some m
          | none =>
            match firstDigitRun trimmed.data with
            | some ds =>
                let numeric : ℤ := (digitsToNat ds : ℤ)
                if numeric = 0 then some ⟨"Yet to decide", none⟩
                else if 1 ≤ numeric ∧ numeric ≤ 4 then
                  some ⟨toString numeric ++ " BHK", some numeric⟩
                else some ⟨"Other", some numeric⟩
            | none => none

/-- Result of the external `normalizePhone` utility as consumed by the
route: an `error` message, or a normalized `value` plus optional country
metadata. -/
structure PhoneNorm where
  error : Option String
  value : Option String
  countryName : Option String
  countryCode : Option String
  dialCode : Option String
  subscriber : Option String
deriving DecidableEq, Repr

/-- JS `a ?? b`. -/
def jsNullish (a b : Json) : Json :=
  if a = .undefVal ∨ a = .null then b else a

def optStrJson : Option String → Json
  | some s => .str s
  | none => .undefVal

/-- leads.js lines 142-169: build `metadataPayload` from the sanitized
metadata and the phone-normalization result. -/
def enrichMetadata (pn : Option PhoneNorm) (metadata : Json) : Json :=
  let payload0 : Json :=
    match metadata with
    | .obj fs => .obj fs
    | _ => .undefVal
  match pn, payload0 with
  | some r, .obj fs =>
      let set1 := fun (fs : JFields) (k : String) (v : Option String) =>
        fs.setKey k (jsNullish (fs.lookupJs k) (jsNullish (optStrJson v) (fs.lookupJs k)))
      let fs1 := set1 fs "phoneCountry" r.countryName
      let fs2 := set1 fs1 "phoneCountryCode" r.countryCode
      let fs3 := set1 fs2 "phoneDialCode" r.dialCode
      let fs4 := set1 fs3 "phoneSubscriber" r.subscriber
      .obj fs4
  | some r, _ =>
      .obj (JFields.ofList
        [ ("phoneCountry", optStrJson r.countryName)
        , ("phoneCountryCode", optStrJson r.countryCode)
        , ("phoneDialCode", optStrJson r.dialCode)
        , ("phoneSubscriber", optStrJson r.subscriber)
        ])
  | none, p => p

/-- The request body of `POST /api/leads` as far as the route reads it:
`phone` is `some p` when the body carried a string (the route's `typeof`
check treats every other type as absent), `bhkType` is `none` for
`undefined`/`null` and otherwise the `String()`-coerced value. -/
structure LeadReq where
  phone : Option String
  bhk : BhkVal
  bhkType : Option String
  microsite : Option String
  metadata : Json
  conversation : Json
  location : Json
deriving DecidableEq, Repr

/-- The record handed to `leadStore.createLead` (the store column
`bhk_type` receives `bhkType`). -/
structure Lead where
  phone : Option String
  bhk : Option ℤ
  bhkType : String
  microsite : String
  metadata : Json
  conversation : Json
  location : Json
deriving DecidableEq, Repr

/-- The record handed to `eventStore.recordEvent`: the payload carries
`leadId`, `bhkType`, and `bhk` only when `numeric` is neither null nor
undefined (the conditional spread at lines 215-216). -/
structure EventRec where
  type : String
  projectId : String
  microsite : String
  payloadLeadId : ℕ
  payloadBhkType : String
  payloadBhk : Option ℤ
  location : Json
deriving DecidableEq, Repr

/-- Route outcome: a 400 with its message, or a 201 with the created
lead, whether the best-effort chat-session insert succeeded, and the
recorded `lead_submitted` event.  (The 500 catch-all for store failures
is outside this model: the stores are assumed to complete.) -/
inductive LeadsResponse where
  | badRequest (message : String) : LeadsResponse
  | created (lead : Lead) (sessionCreated : Bool) (event : EventRec) : LeadsResponse
deriving DecidableEq, Repr

def LeadsResponse.status : LeadsResponse → ℕ
  | .badRequest _ => 400
  | .created _ _ _ => 201

def LeadsResponse.leadBhk : LeadsResponse → Option (Option ℤ)
  | .created l _ _ => some l.bhk
  | .badRequest _ => none

def LeadsResponse.leadBhkType : LeadsResponse → Option String
  | .created l _ _ => some l.bhkType
  | .badRequest _ => none

def LeadsResponse.eventType : LeadsResponse → Option String
  | .created _ _ e => some e.type
  | .badRequest _ => none

def LeadsResponse.eventPayloadBhk : LeadsResponse → Option (Option ℤ)
  | .created _ _ e => some e.payloadBhk
  | .badRequest _ => none

/-- The error produced by the phone section of the route (lines 128-139):
`none` when the phone is absent/blank or normalizes cleanly. -/
def phonePathError (normalizePhone : String → PhoneNorm) :
    Option String → Option String
  | some p => if jsTrim p = "" then none else (normalizePhone (jsTrim p)).error
  | none => none

/-- Handler `router.post("/")` of leads.js, lines 106-226.  `sanitizeMicrosite`,
`sanitizeMetadata`, `sanitizeConversation`, `normalizePhone` and the JS
`Number()` string coercion are the external collaborators, passed in as
functions; `leadId` is the id the store assigns to the created lead and
`sessionOk` is whether the best-effort `createChatSession` call
succeeded (its failure is caught and logged). -/
def leadsPost (sanitizeMicrosite : Option String → Option String)
    (sanitizeMetadata sanitizeConversation : Json → Json)
    (normalizePhone : String → PhoneNorm) (jsNumber : String → Option ℚ)
    (leadId : ℕ) (sessionOk : Bool) (req : LeadReq) : LeadsResponse :=
  let micrositeOpt := sanitizeMicrosite req.microsite
  match micrositeOpt with
  | none => .badRequest "Missing or invalid microsite"
  | some microsite =>
    if microsite = "" then .badRequest "Missing or invalid microsite"
    else
      let metadata := sanitizeMetadata req.metadata
      let conversation := sanitizeConversation req.conversation
      match normalizeBhkPreference jsNumber req.bhk req.bhkType with
      | none => .badRequest "Invalid or missing BHK preference"
      | some normalizedBhk =>
        let sanitizedPhone : Option String :=
          match req.phone with
          | some p => if jsTrim p = "" then none else some (jsTrim p)
          | none => none
        let phoneRes : Option PhoneNorm := sanitizedPhone.map normalizePhone
        match phoneRes.bind (·.error) with
        | some e => .badRequest e
        | none =>
          let normalizedPhone : Option String := phoneRes.bind (·.value)
          let metadataPayload := enrichMetadata phoneRes metadata
          let location :=
            jsOr (metadataPayload.get "location")
              (jsOr ((metadataPayload.get "visitor").get "location")
                (jsOr req.location .null))
          let lead : Lead :=
            ⟨normalizedPhone, normalizedBhk.numeric, normalizedBhk.type,
              microsite, metadataPayload, conversation, location⟩
          let event : EventRec :=
            ⟨"lead_submitted", microsite, microsite, leadId,
              normalizedBhk.type, normalizedBhk.numeric, location⟩
          .created lead sessionOk event

/-! ## `requireApiKey` (apps/api/src/middleware/auth.js) and
`POST /api/widget-config/:projectId` (routes/widgetConfig.js lines
118-143) -/

def removeFirstSub (sub : List Char) : List Char → Option (List Char)
  | [] => if sub.isEmpty then some [] else none
  | c :: rest =>
      if sub.isPrefixOf (c :: rest) then some ((c :: rest).drop sub.length)
      else (removeFirstSub sub rest).map (c :: ·)

/-- Remove the first occurrence of `sub` from `s`
(`s.replace('Bearer ', '')`). -/
def replaceFirst (s sub : String) : String :=
  match removeFirstSub sub.data s.data with
  | some l => String.mk l
  | none => s

/-- JS `a || b` on optional header strings. -/
def jsStrOr (a b : Option String) : Option String :=
  match a with
  | some s => if s = "" then b else some s
  | none => b

/-- The key string the middleware extracts:
`(req.headers['x-api-key'] || req.headers['authorization']?.replace('Bearer ', '') || '').trim()`. -/
def extractedApiKey (xApiKey authorization : Option String) : String :=
  jsTrim ((jsStrOr xApiKey (authorization.map (fun a => replaceFirst a "Bearer "))).getD "")

inductive AuthResult where
  | pass : AuthResult
  | unauthorized : AuthResult
  | forbidden : AuthResult
deriving DecidableEq, Repr

/-- Middleware `requireApiKey(req, res, next)`: `next()` when no key is configured;
401 when a key is configured but the request carries none; 403 on
mismatch; `next()` on match. -/
def requireApiKeyDecision (xApiKey authorization envKey : Option String) :
    AuthResult :=
  let apiKey := extractedApiKey xApiKey authorization
  let expectedKey := jsTrim (envKey.getD "")
  if expectedKey = "" then .pass
  else if apiKey = "" then .unauthorized
  else if apiKey ≠ expectedKey then .forbidden
  else .pass

inductive ConfigPostResult where
  | unauthorized401 : ConfigPostResult
  | forbidden403 : ConfigPostResult
  | ok (config : Json) : ConfigPostResult
deriving DecidableEq, Repr

/-- Handler `router.post("/:projectId", requireApiKey, handler)`: the handler
stores the update and responds with the updated config.  The store is
the external `updateWidgetConfig`, passed in as a function (its throw /
500 path is outside the model). -/
def widgetConfigPost (xApiKey authorization envKey : Option String)
    (updateWidgetConfig : String → Json → Json)
    (projectId : String) (body : Json) : ConfigPostResult :=
  match requireApiKeyDecision xApiKey authorization envKey with
  | .unauthorized => .unauthorized401
  | .forbidden => .forbidden403
  | .pass => .ok (updateWidgetConfig projectId body)

/-! ## Shared lemmas -/

theorem truthy_serNF (j : Json) : (Json.serNF j).truthy = j.truthy := by
  cases j <;> simp [Json.serNF, Json.truthy]

theorem get_truthy_obj {j : Json} {k : String}
    (h : (j.get k).truthy = true) : j.truthy = true := by
  cases j <;> simp [Json.get, Json.truthy] at h ⊢

theorem setKey_lookup : ∀ (fs : JFields) (k : String) (v : Json),
    (fs.setKey k v).lookupJs k = v
  | .nil, k, v => by simp [JFields.setKey, JFields.lookupJs]
  | .cons k' v' rest, k, v => by
      by_cases h : k' = k <;>
        simp [JFields.setKey, JFields.lookupJs, h, setKey_lookup rest k v]

/-! ## C3 -/

/-- C3: for every `fetchWidgetTheme` call that actually performs a fetch
(not answered from a fresh cache entry), a network error / abort, a
non-2xx response, or a malformed JSON body makes the function return the
empty object `{}` — the error is absorbed inside the function — and the
cache is not written from the error result: it is left exactly as the
pre-fetch cache-bust left it (erased-at-key when busting, otherwise
untouched). -/
theorem fetchWidgetTheme_failure_empty_no_cache_write
    (cache : ThemeCache) (now nowStore : ℕ) (apiBaseUrl projectId : String)
    (forceRefresh urlCacheBust : Bool) (outcome : FetchOutcome)
    (herr : outcome.isError = true)
    (hmiss : fetchServedFromCache cache now apiBaseUrl projectId forceRefresh
      urlCacheBust = false) :
    (fetchWidgetTheme cache now nowStore apiBaseUrl projectId forceRefresh
        urlCacheBust outcome).1 = .obj .nil ∧
    (fetchWidgetTheme cache now nowStore apiBaseUrl projectId forceRefresh
        urlCacheBust outcome).2 =
      (if urlCacheBust || forceRefresh then
        cacheErase cache (apiBaseUrl ++ ":" ++ projectId) else cache) := by
  have hattempt : ∀ c k, (fetchAttempt c nowStore k outcome).1 = .obj .nil ∧
      (fetchAttempt c nowStore k outcome).2 = c := by
    intro c k
    cases outcome with
    | netError => simp [fetchAttempt]
    | resp ok body =>
        cases ok with
        | false => simp [fetchAttempt]
        | true =>
            cases body with
            | none => simp [fetchAttempt]
            | some data => simp [FetchOutcome.isError] at herr
  unfold fetchWidgetTheme
  unfold fetchServedFromCache at hmiss
  cases hbust : (urlCacheBust || forceRefresh) with
  | true => simpa [hbust] using hattempt _ _
  | false =>
      simp only [hbust, Bool.false_eq_true, if_false, if_neg]
      cases hl : cacheLookup cache (apiBaseUrl ++ ":" ++ projectId) with
      | none => simpa [hl] using hattempt _ _
      | some e =>
          rw [hbust, hl] at hmiss
          simp only [Bool.not_false, Bool.true_and, decide_eq_false_iff_not] at hmiss
          simpa [hl, hmiss] using hattempt _ _

/-- Witness for C3 at a concrete input: cache-busting call, network
error. -/
theorem fetchWidgetTheme_failure_empty_no_cache_write_witness :
    (fetchWidgetTheme [] 0 5 "http://a" "p" true false .netError).1 = .obj .nil ∧
    (fetchWidgetTheme [] 0 5 "http://a" "p" true false .netError).2 =
      (if (false || true : Bool) then
        cacheErase [] ("http://a" ++ ":" ++ "p") else []) :=
  fetchWidgetTheme_failure_empty_no_cache_write [] 0 5 "http://a" "p" true false
    .netError (by decide) (by decide)

/-! ## C4 -/

/-- C4 counterexample: the claim says every successful `fetchWidgetTheme`
result carries only canonical camelCase field names regardless of the
server's casing.  But the conversion at widget.jsx lines 106-122 only
runs when the body has a truthy `agent_name` and no truthy `agentName`:
a successful snake_case response `{"primary_color": "#123456"}` (no
`agent_name` field) is returned verbatim, still keyed `primary_color`
and with no `primaryColor` key. -/
theorem fetchWidgetTheme_snake_passthrough_counterexample :
    (fetchWidgetTheme [] 0 0 "http://a" "default" true false
        (.resp true (some (Json.obj (.cons "primary_color" (.str "#123456") .nil))))).1
      = Json.obj (.cons "primary_color" (.str "#123456") .nil) ∧
    ((fetchWidgetTheme [] 0 0 "http://a" "default" true false
        (.resp true (some (Json.obj (.cons "primary_color" (.str "#123456") .nil))))).1).keysOf
      = ["primary_color"] := by
  constructor <;> rfl

/-- C4 as amended: the camelCase conversion applies exactly when the
successful body has a truthy `agent_name` and no truthy `agentName`; in
that case the value returned (and cached) is an object whose keys are
precisely the thirteen canonical camelCase field names.  A body outside
that trigger condition (e.g. snake_case without `agent_name`) is
returned as-is. -/
theorem fetchWidgetTheme_normalizes_on_agent_name
    (cache : ThemeCache) (now nowStore : ℕ) (apiBaseUrl projectId : String)
    (forceRefresh urlCacheBust : Bool) (data : Json)
    (h1 : (data.get "agent_name").truthy = true)
    (h2 : (data.get "agentName").truthy = false)
    (hmiss : fetchServedFromCache cache now apiBaseUrl projectId forceRefresh
      urlCacheBust = false) :
    ((fetchWidgetTheme cache now nowStore apiBaseUrl projectId forceRefresh
        urlCacheBust (.resp true (some data))).1).keysOf
      = ["projectId", "agentName", "avatarUrl", "primaryColor",
         "followupMessage", "bhkPrompt", "inventoryMessage", "phonePrompt",
         "thankYouMessage", "bubblePosition", "autoOpenDelayMs",
         "welcomeMessage", "propertyInfo"] := by
  have hdata : data.truthy = true := get_truthy_obj h1
  have hnorm : (normalizeSnakeTheme data).keysOf
      = ["projectId", "agentName", "avatarUrl", "primaryColor",
         "followupMessage", "bhkPrompt", "inventoryMessage", "phonePrompt",
         "thankYouMessage", "bubblePosition", "autoOpenDelayMs",
         "welcomeMessage", "propertyInfo"] := by
    unfold normalizeSnakeTheme
    rw [if_pos ⟨hdata, h1, by simp [h2]⟩]
    simp [Json.keysOf, JFields.ofList, JFields.keys]
  have hattempt : ∀ c k,
      ((fetchAttempt c nowStore k (.resp true (some data))).1).keysOf
        = ["projectId", "agentName", "avatarUrl", "primaryColor",
           "followupMessage", "bhkPrompt", "inventoryMessage", "phonePrompt",
           "thankYouMessage", "bubblePosition", "autoOpenDelayMs",
           "welcomeMessage", "propertyInfo"] := by
    intro c k
    simpa [fetchAttempt] using hnorm
  unfold fetchWidgetTheme
  unfold fetchServedFromCache at hmiss
  cases hbust : (urlCacheBust || forceRefresh) with
  | true => simpa [hbust] using hattempt _ _
  | false =>
      simp only [hbust, Bool.false_eq_true, if_false, if_neg]
      cases hl : cacheLookup cache (apiBaseUrl ++ ":" ++ projectId) with
      | none => simpa [hl] using hattempt _ _
      | some e =>
          rw [hbust, hl] at hmiss
          simp only [Bool.not_false, Bool.true_and, decide_eq_false_iff_not] at hmiss
          simpa [hl, hmiss] using hattempt _ _

/-- Witness for the amended C4 at a concrete snake_case body. -/
theorem fetchWidgetTheme_normalizes_on_agent_name_witness :
    ((fetchWidgetTheme [] 0 0 "http://a" "default" true false
        (.resp true (some (Json.obj (.cons "agent_name" (.str "Riya") .nil))))).1).keysOf
      = ["projectId", "agentName", "avatarUrl", "primaryColor",
         "followupMessage", "bhkPrompt", "inventoryMessage", "phonePrompt",
         "thankYouMessage", "bubblePosition", "autoOpenDelayMs",
         "welcomeMessage", "propertyInfo"] :=
  fetchWidgetTheme_normalizes_on_agent_name [] 0 0 "http://a" "default" true false
    (Json.obj (.cons "agent_name" (.str "Riya") .nil))
    (by decide) (by decide) (by decide)

/-! ## C5 -/

/-- C5 counterexample: the claim says two theme objects that are
deep-equal after stripping undefined/null fields trigger at most one
render across two `updateTheme` calls.  Take `T1 = {agentName:"A"}` and
`T2 = {agentName:"A", avatarUrl:null}`: they are equal after
null/undefined-stripping, yet the second call still renders, because the
code compares `avatarUrl` with strict `!==` (`null !== undefined`) and
raw `JSON.stringify`, which keeps `null` fields.  Starting from the
mounted theme `{}`, the two calls perform two renders. -/
theorem updateTheme_null_stripping_counterexample :
    (Json.obj (.cons "agentName" (.str "A") .nil)).stripNullUndef
      = (Json.obj (.cons "agentName" (.str "A")
          (.cons "avatarUrl" .null .nil))).stripNullUndef ∧
    (updateTheme
        (updateTheme ⟨.obj .nil, 0⟩ (Json.obj (.cons "agentName" (.str "A") .nil)))
        (Json.obj (.cons "agentName" (.str "A")
          (.cons "avatarUrl" .null .nil)))).renders = 2 := by
  constructor <;> rfl

/-- C5 as amended: `updateTheme`'s change detection is strict field
comparison plus raw `JSON.stringify` equality, which strips
undefined-valued fields but keeps null fields and is sensitive to key
order.  So the idempotence that actually holds is: a second call whose
theme serializes identically (`Json.serNF`) and whose four
strictly-compared fields are equal triggers no additional render; themes
that agree only after null-stripping may render twice (see the
counterexample). -/
theorem updateTheme_idempotent_up_to_serialization
    (s : UpdSt) (t t' : Json)
    (hser : t'.serNF = t.serNF)
    (ha : t'.get "agentName" = t.get "agentName")
    (hb : t'.get "avatarUrl" = t.get "avatarUrl")
    (hc : t'.get "primaryColor" = t.get "primaryColor")
    (hd : t'.get "welcomeMessage" = t.get "welcomeMessage") :
    (updateTheme (updateTheme s t) t').renders = (updateTheme s t).renders := by
  have htr : t'.truthy = t.truthy := by
    rw [← truthy_serNF t', hser, truthy_serNF]
  cases ht : t.truthy with
  | false =>
      have h1 : updateTheme s t = s := by
        unfold updateTheme; rw [ht]; simp
      have h2 : updateTheme s t' = s := by
        unfold updateTheme; rw [htr, ht]; simp
      rw [h1, h2]
  | true =>
      have ht' : t'.truthy = true := htr.trans ht
      unfold updateTheme
      rw [ht, ht']
      simp only [if_true]
      set ct := if s.theme.truthy then s.theme else Json.obj .nil with hct
      by_cases hch : t.get "agentName" ≠ ct.get "agentName"
          ∨ t.get "avatarUrl" ≠ ct.get "avatarUrl"
          ∨ t.get "primaryColor" ≠ ct.get "primaryColor"
          ∨ t.get "welcomeMessage" ≠ ct.get "welcomeMessage"
          ∨ t.serNF ≠ ct.serNF
      · rw [if_pos hch]
        have : ¬(t'.get "agentName" ≠ t.get "agentName"
            ∨ t'.get "avatarUrl" ≠ t.get "avatarUrl"
            ∨ t'.get "primaryColor" ≠ t.get "primaryColor"
            ∨ t'.get "welcomeMessage" ≠ t.get "welcomeMessage"
            ∨ t'.serNF ≠ t.serNF) := by
          push_neg
          exact ⟨ha, hb, hc, hd, hser⟩
        have hcteq : (if t.truthy = true then t else Json.obj JFields.nil) = t :=
          if_pos ht
        simp only [hcteq]
        rw [if_neg this]
      · rw [if_neg hch]
        have : ¬(t'.get "agentName" ≠ ct.get "agentName"
            ∨ t'.get "avatarUrl" ≠ ct.get "avatarUrl"
            ∨ t'.get "primaryColor" ≠ ct.get "primaryColor"
            ∨ t'.get "welcomeMessage" ≠ ct.get "welcomeMessage"
            ∨ t'.serNF ≠ ct.serNF) := by
          push_neg at hch ⊢
          exact ⟨ha.trans hch.1, hb.trans hch.2.1, hc.trans hch.2.2.1,
            hd.trans hch.2.2.2.1, hser.trans hch.2.2.2.2⟩
        rw [← hct, if_neg this]

/-- Witness for the amended C5: two calls with the same concrete theme,
one render total. -/
theorem updateTheme_idempotent_up_to_serialization_witness :
    (updateTheme
        (updateTheme ⟨.obj .nil, 0⟩ (Json.obj (.cons "agentName" (.str "A") .nil)))
        (Json.obj (.cons "agentName" (.str "A") .nil))).renders =
      (updateTheme ⟨.obj .nil, 0⟩
        (Json.obj (.cons "agentName" (.str "A") .nil))).renders :=
  updateTheme_idempotent_up_to_serialization ⟨.obj .nil, 0⟩
    (Json.obj (.cons "agentName" (.str "A") .nil))
    (Json.obj (.cons "agentName" (.str "A") .nil)) rfl rfl rfl rfl rfl

/-! ## C6 -/

/-- C6: in the theme handed to `mountWidget`, `propertyInfo` is the
detected page-property map whenever the detector returned a non-empty
map, overriding any `propertyInfo` of the fetched remote config; when
the detected map is empty, `propertyInfo` is the remote config's
`propertyInfo` (assumed, as for any real map, to be truthy when
present), or `{}` when absent. -/
theorem initFinalTheme_propertyInfo_precedence
    (remote overrides : Json) (fs : JFields)
    (hremote : remote.get "propertyInfo" = .undefVal
      ∨ (remote.get "propertyInfo").truthy = true) :
    (fs ≠ .nil →
      (initFinalTheme remote overrides (.obj fs)).get "propertyInfo" = .obj fs) ∧
    ((initFinalTheme remote overrides (.obj .nil)).get "propertyInfo"
      = if remote.get "propertyInfo" = .undefVal then .obj .nil
        else remote.get "propertyInfo") := by
  constructor
  · intro hne
    unfold initFinalTheme
    have hcond : (Json.obj fs).truthy = true ∧ 0 < (Json.obj fs).keysOf.length := by
      refine ⟨rfl, ?_⟩
      cases fs with
      | nil => exact absurd rfl hne
      | cons k v rest => simp [Json.keysOf, JFields.keys]
    rw [if_pos hcond]
    exact setKey_lookup _ _ _
  · unfold initFinalTheme
    have hcond : ¬((Json.obj .nil).truthy = true ∧ 0 < (Json.obj .nil).keysOf.length) := by
      simp [Json.keysOf, JFields.keys]
    rw [if_neg hcond]
    cases hremote with
    | inl h =>
        rw [if_pos h]
        have : jsOr (remote.get "propertyInfo") (.obj .nil) = .obj .nil := by
          rw [h]; simp [jsOr, Json.truthy]
        rw [this]
        exact setKey_lookup _ _ _
    | inr h =>
        have hne : remote.get "propertyInfo" ≠ .undefVal := by
          intro he; rw [he] at h; simp [Json.truthy] at h
        rw [if_neg hne]
        have : jsOr (remote.get "propertyInfo") (.obj .nil) = remote.get "propertyInfo" := by
          simp [jsOr, h]
        rw [this]
        exact setKey_lookup _ _ _

/-- Witness for C6: a page-detected one-entry map beats the remote
`propertyInfo`, and an empty detection falls back to it. -/
theorem initFinalTheme_propertyInfo_precedence_witness :
    ((JFields.cons "name" (.str "Tower A") .nil) ≠ .nil →
      (initFinalTheme
          (.obj (.cons "propertyInfo" (.obj (.cons "name" (.str "Remote") .nil)) .nil))
          (.obj .nil)
          (.obj (.cons "name" (.str "Tower A") .nil))).get "propertyInfo"
        = .obj (.cons "name" (.str "Tower A") .nil)) ∧
    ((initFinalTheme
        (.obj (.cons "propertyInfo" (.obj (.cons "name" (.str "Remote") .nil)) .nil))
        (.obj .nil) (.obj .nil)).get "propertyInfo"
      = if (Json.obj (.cons "propertyInfo" (.obj (.cons "name" (.str "Remote") .nil)) .nil)).get
            "propertyInfo" = .undefVal then .obj .nil
        else (Json.obj (.cons "propertyInfo"
            (.obj (.cons "name" (.str "Remote") .nil)) .nil)).get "propertyInfo") :=
  initFinalTheme_propertyInfo_precedence
    (.obj (.cons "propertyInfo" (.obj (.cons "name" (.str "Remote") .nil)) .nil))
    (.obj .nil) (.cons "name" (.str "Tower A") .nil) (by right; rfl)

/-! ## C8 -/

/-- C8 counterexample: the claim says a plain (http) configured URL is
discarded whenever the hosting page is served over https.  The code only
discards loopback URLs: on an https page at `example.com`, the plain URL
`http://api.example.com` is kept and used. -/
theorem resolveApiBaseUrl_keeps_plain_http_on_https_counterexample :
    resolveApiBaseUrl (some "http://api.example.com") "example.com" "https:"
      = some "http://api.example.com" := by decide

/-- C8 as amended: `init` discards a configured (truthy) API base URL —
`apiBaseUrl` is set to `null` and no request is attempted against it —
exactly in the loopback mismatch cases: the URL mentions
`localhost`/`127.0.0.1` and either (1) the hosting page's hostname is
not loopback, or (2) the hosting page is served over https.  A plain
non-loopback http URL on an https page is NOT discarded (see the
counterexample). -/
theorem resolveApiBaseUrl_discards_loopback
    (u hostname protocol : String) (hu : u ≠ "")
    (hloop : isLoopbackUrl u = true)
    (hmis : ¬(hostname = "localhost" ∨ hostname = "127.0.0.1" ∨ hostname = "")
      ∨ protocol = "https:") :
    resolveApiBaseUrl (some u) hostname protocol = none := by
  rcases hmis with hm | hm
  · push_neg at hm
    obtain ⟨h1, h2, h3⟩ := hm
    simp [resolveApiBaseUrl, jsStrTruthy, urlTruthyAndLoopback, hu, hloop, h1, h2, h3]
  · by_cases h1 : hostname = "localhost" <;>
      by_cases h2 : hostname = "127.0.0.1" <;>
      by_cases h3 : hostname = "" <;>
      simp [resolveApiBaseUrl, jsStrTruthy, urlTruthyAndLoopback, hu, hloop, hm, h1, h2, h3]

/-- Witness for the amended C8: a localhost URL on a production page. -/
theorem resolveApiBaseUrl_discards_loopback_witness :
    resolveApiBaseUrl (some "http://localhost:4000") "example.com" "http:" = none :=
  resolveApiBaseUrl_discards_loopback "http://localhost:4000" "example.com" "http:"
    (by decide) (by decide) (by left; decide)

/-! ## C1 -/

theorem initStep_hosts_le (s : InitSys) (i : ℕ) (mo : MountOutcome)
    (h : s.hosts ≤ 1) : (initStep s i mo).hosts ≤ 1 := by
  unfold initStep
  cases hc : s.callers[i]? with
  | none => exact h
  | some ph =>
    dsimp only
    cases ph with
    | start => split_ifs <;> exact h
    | waiting => split_ifs <;> exact h
    | preMount =>
        dsimp only
        split_ifs with hreg hhost
        · exact h
        · exact h
        · cases mo <;> dsimp only <;> omega
    | postMount r => exact h
    | done r => exact h

theorem initRun_hosts_le : ∀ (acts : List (ℕ × MountOutcome)) (s : InitSys),
    s.hosts ≤ 1 → (initRun s acts).hosts ≤ 1
  | [], _, h => h
  | a :: rest, s, h =>
      initRun_hosts_le rest (initStep s a.1 a.2) (initStep_hosts_le s a.1 a.2 h)

/-- C1: (1) over every interleaving of any number of `init()` callers —
every sequence of atomic event-loop steps from a fresh page — at most
one widget host element carrying the singleton marker exists, even
across failed mount attempts; (2) a caller parked in the 100 ms wait
loop whose `initInProgress` flag has cleared and for which the registry
now holds the instance resolves to that existing instance (`some ()`),
changing nothing else — it does not mount its own; (3) `mountWidget`
entered while the registry holds an instance returns that instance and
creates no host. -/
theorem init_singleton_reentrancy
    : (∀ (n : ℕ) (acts : List (ℕ × MountOutcome)),
        (initRun (initSysStart n) acts).hosts ≤ 1) ∧
      (∀ (s : InitSys) (i : ℕ) (mo : MountOutcome),
        s.callers[i]? = some .waiting → s.initInProgress = false →
        s.registryFull = true →
        initStep s i mo = { s with callers := s.callers.set i (.done (some ())) }) ∧
      (∀ (s : InitSys) (i : ℕ) (mo : MountOutcome),
        s.callers[i]? = some .preMount → s.registryFull = true →
        (initStep s i mo).hosts = s.hosts ∧
        (initStep s i mo).callers = s.callers.set i (.postMount (some ()))) := by
  refine ⟨fun n acts => initRun_hosts_le acts _ (by simp [initSysStart]), ?_, ?_⟩
  · intro s i mo hc hip hreg
    unfold initStep
    rw [hc]
    simp [hip, hreg]
  · intro s i mo hc hreg
    unfold initStep
    rw [hc]
    simp [hreg]

/-- Witness for C1 at concrete inputs: two racing callers end with one
host; a waiting caller with the flag cleared and the registry full
resolves to the existing instance; a mount attempt with the registry
full creates no host. -/
theorem init_singleton_reentrancy_witness :
    (initRun (initSysStart 2) [(0, .ok), (1, .ok), (0, .ok), (1, .ok), (0, .ok)]).hosts ≤ 1 ∧
    initStep ⟨1, true, false, [.waiting]⟩ 0 .ok
      = { (⟨1, true, false, [.waiting]⟩ : InitSys) with
          callers := [CallerPhase.waiting].set 0 (.done (some ())) } ∧
    ((initStep ⟨1, true, true, [.preMount]⟩ 0 .ok).hosts = 1 ∧
      (initStep ⟨1, true, true, [.preMount]⟩ 0 .ok).callers
        = [CallerPhase.preMount].set 0 (.postMount (some ()))) :=
  ⟨init_singleton_reentrancy.1 2 [(0, .ok), (1, .ok), (0, .ok), (1, .ok), (0, .ok)],
   init_singleton_reentrancy.2.1 ⟨1, true, false, [.waiting]⟩ 0 .ok rfl rfl rfl,
   init_singleton_reentrancy.2.2 ⟨1, true, true, [.preMount]⟩ 0 .ok rfl rfl⟩

/-! ## C2 -/

/-- C2 (claim right, code wrong): the claim — and the first `destroy`
written at widget.jsx lines 438-448 — says `destroy()` clears the
config-polling interval, so a destroy-then-mount cycle keeps at most
one interval alive.  But the instance object literal defines `destroy`
a second time at lines 472-479, and in JS the later duplicate key wins;
the effective `destroy` never calls `stopConfigPolling`.  Concretely:
mount, destroy, mount again leaves 2 live polling intervals under the
effective `destroy` (`instanceDestroy`), versus the 1 the shadowed
lines 438-448 (`instanceDestroyShadowed`) would leave. -/
theorem destroy_leaks_polling_interval :
    activeIntervals (mountWidgetW (instanceDestroy (mountWidgetW pollWorld0).1 0)).1 = 2 ∧
    activeIntervals (mountWidgetW (instanceDestroyShadowed (mountWidgetW pollWorld0).1 0)).1 = 1 := by
  constructor <;> rfl

/-! ## C10 -/

/-- C10: `POST /api/leads` rejects a request whose `microsite` is
missing or sanitizes to an empty value with 400
"Missing or invalid microsite", whatever the BHK and phone fields are —
the response carries no created lead, chat session, or event, and no
BHK or phone validation is reached (the result is `badRequest`
uniformly in those fields).  Holds for every implementation of the
external sanitizers and phone normalizer. -/
theorem leadsPost_missing_microsite_400
    (smc : Option String → Option String) (smd scv : Json → Json)
    (np : String → PhoneNorm) (jn : String → Option ℚ) (lid : ℕ) (sOk : Bool)
    (req : LeadReq)
    (h : smc req.microsite = none ∨ smc req.microsite = some "") :
    leadsPost smc smd scv np jn lid sOk req
      = .badRequest "Missing or invalid microsite" := by
  unfold leadsPost
  rcases h with h | h
  · rw [h]
  · rw [h]; simp

/-- Witness for C10: a request with no microsite (sanitizer yields
`none`) but a perfectly valid BHK and phone is still rejected. -/
theorem leadsPost_missing_microsite_400_witness :
    leadsPost (fun _ => none) id id
        (fun s => ⟨none, some s, none, none, none, none⟩) (fun _ => none) 1 true
        ⟨some "9876543210", .num 2, none, none, .undefVal, .undefVal, .undefVal⟩
      = .badRequest "Missing or invalid microsite" :=
  leadsPost_missing_microsite_400 (fun _ => none) id id
    (fun s => ⟨none, some s, none, none, none, none⟩) (fun _ => none) 1 true
    ⟨some "9876543210", .num 2, none, none, .undefVal, .undefVal, .undefVal⟩ (Or.inl rfl)

/-! ## C7 -/

theorem sanitizedPhone_error_eq (np : String → PhoneNorm) (phone : Option String) :
    ((match phone with
      | some p => if jsTrim p = "" then none else some (jsTrim p)
      | none => none).map np).bind (·.error) = phonePathError np phone := by
  cases phone with
  | none => rfl
  | some p =>
      by_cases h : jsTrim p = "" <;> simp only [phonePathError, h, if_pos, if_neg,
        ite_true, ite_false, Option.map_some, Option.map_none, Option.bind] <;> simp [h]

theorem leadsPost_created_of_valid
    (smc : Option String → Option String) (smd scv : Json → Json)
    (np : String → PhoneNorm) (jn : String → Option ℚ) (lid : ℕ) (sOk : Bool)
    (req : LeadReq) (m : String) (nb : BhkNorm)
    (hms : smc req.microsite = some m) (hm : m ≠ "")
    (hb : normalizeBhkPreference jn req.bhk req.bhkType = some nb)
    (hp : phonePathError np req.phone = none) :
    (leadsPost smc smd scv np jn lid sOk req).status = 201 ∧
    (leadsPost smc smd scv np jn lid sOk req).leadBhk = some nb.numeric ∧
    (leadsPost smc smd scv np jn lid sOk req).leadBhkType = some nb.type ∧
    (leadsPost smc smd scv np jn lid sOk req).eventType = some "lead_submitted" ∧
    (leadsPost smc smd scv np jn lid sOk req).eventPayloadBhk = some nb.numeric := by
  unfold leadsPost
  rw [hms]
  dsimp only
  rw [if_neg hm, hb]
  dsimp only
  rw [sanitizedPhone_error_eq np req.phone, hp]
  simp [LeadsResponse.status, LeadsResponse.leadBhk, LeadsResponse.leadBhkType,
    LeadsResponse.eventType, LeadsResponse.eventPayloadBhk]

theorem leadsPost_badRequest_of_phone_error
    (smc : Option String → Option String) (smd scv : Json → Json)
    (np : String → PhoneNorm) (jn : String → Option ℚ) (lid : ℕ) (sOk : Bool)
    (req : LeadReq) (m : String) (nb : BhkNorm) (e : String)
    (hms : smc req.microsite = some m) (hm : m ≠ "")
    (hb : normalizeBhkPreference jn req.bhk req.bhkType = some nb)
    (hp : phonePathError np req.phone = some e) :
    leadsPost smc smd scv np jn lid sOk req = .badRequest e := by
  unfold leadsPost
  rw [hms]
  dsimp only
  rw [if_neg hm, hb]
  dsimp only
  rw [sanitizedPhone_error_eq np req.phone, hp]

theorem classifyRoundedBhk_two : classifyRoundedBhk (jsRound 2) = ⟨"2 BHK", some 2⟩ := by
  have hr : jsRound 2 = 2 := by norm_num [jsRound]
  rw [hr]; decide

theorem normalizeBhk_num_two (jn : String → Option ℚ) (bt : Option String) :
    normalizeBhkPreference jn (.num 2) bt = some ⟨"2 BHK", some 2⟩ := by
  unfold normalizeBhkPreference
  dsimp only
  rw [if_neg (by norm_num : ¬(2 : ℚ) = 0), classifyRoundedBhk_two]

theorem normalizeBhk_type_two (jn : String → Option ℚ) :
    normalizeBhkPreference jn .missing (some "2") = some ⟨"2 BHK", some 2⟩ := rfl

theorem normalizeBhk_num_zero (jn : String → Option ℚ) (bt : Option String) :
    normalizeBhkPreference jn (.num 0) bt = some ⟨"Yet to decide", none⟩ := rfl

theorem normalizeBhk_yettodecide (jn : String → Option ℚ) (t : String)
    (hkey : normalizeKey (jsTrim t) = "yettodecide") :
    normalizeBhkPreference jn .missing (some t) = some ⟨"Yet to decide", none⟩ := by
  have ht0 : t ≠ "" := by
    intro h; rw [h] at hkey; exact absurd hkey (by decide)
  have htr : jsTrim t ≠ "" := by
    intro h; rw [h] at hkey; exact absurd hkey (by decide)
  unfold normalizeBhkPreference
  dsimp only
  rw [if_neg ht0, if_neg htr, hkey]
  rfl

theorem normalizeBhk_missing (jn : String → Option ℚ) :
    normalizeBhkPreference jn .missing none = none := rfl

/-- C7: the BHK contract of `POST /api/leads`, for any valid microsite
and any implementations of the external sanitizers/normalizers:
(1) `bhkType:"2"` (or numeric `bhk:2`), with the phone absent/blank or
normalizing cleanly, yields 201 with a lead whose `bhk = 2` and
`bhk_type = "2 BHK"` and a `lead_submitted` event whose payload carries
`bhk = 2`; (2) numeric `bhk:0` or a `bhkType` that is a
"yet to decide" variant (its trimmed, lowercased, alphanumeric-only key
is `yettodecide`) yields 201 with `bhk = null`, `bhk_type =
"Yet to decide"`, and no `bhk` in the event payload; (3) a BHK
preference that is missing or invalid — anything
`normalizeBhkPreference` maps to `null`, e.g. `bhkType:"penthouse"` or
a fully absent preference — is answered 400
"Invalid or missing BHK preference", as is a phone that fails
normalization. -/
theorem leadsPost_bhk_contract
    (smc : Option String → Option String) (smd scv : Json → Json)
    (np : String → PhoneNorm) (jn : String → Option ℚ) (lid : ℕ) (sOk : Bool)
    (req : LeadReq) (m : String)
    (hms : smc req.microsite = some m) (hm : m ≠ "") :
    ((req.bhk = .missing ∧ req.bhkType = some "2" ∨ req.bhk = .num 2) →
      phonePathError np req.phone = none →
      (leadsPost smc smd scv np jn lid sOk req).status = 201 ∧
      (leadsPost smc smd scv np jn lid sOk req).leadBhk = some (some 2) ∧
      (leadsPost smc smd scv np jn lid sOk req).leadBhkType = some "2 BHK" ∧
      (leadsPost smc smd scv np jn lid sOk req).eventType = some "lead_submitted" ∧
      (leadsPost smc smd scv np jn lid sOk req).eventPayloadBhk = some (some 2)) ∧
    ((req.bhk = .num 0 ∨ req.bhk = .missing ∧
        ∃ t, req.bhkType = some t ∧ normalizeKey (jsTrim t) = "yettodecide") →
      phonePathError np req.phone = none →
      (leadsPost smc smd scv np jn lid sOk req).status = 201 ∧
      (leadsPost smc smd scv np jn lid sOk req).leadBhk = some none ∧
      (leadsPost smc smd scv np jn lid sOk req).leadBhkType = some "Yet to decide" ∧
      (leadsPost smc smd scv np jn lid sOk req).eventPayloadBhk = some none) ∧
    (normalizeBhkPreference jn req.bhk req.bhkType = none →
      leadsPost smc smd scv np jn lid sOk req
        = .badRequest "Invalid or missing BHK preference") ∧
    (∀ (e : String) (nb : BhkNorm),
      normalizeBhkPreference jn req.bhk req.bhkType = some nb →
      phonePathError np req.phone = some e →
      (leadsPost smc smd scv np jn lid sOk req).status = 400) := by
  refine ⟨?_, ?_, ?_, ?_⟩
  · intro hbhk hp
    have hb : normalizeBhkPreference jn req.bhk req.bhkType = some ⟨"2 BHK", some 2⟩ := by
      rcases hbhk with ⟨h1, h2⟩ | h1
      · rw [h1, h2]; exact normalizeBhk_type_two jn
      · rw [h1]; exact normalizeBhk_num_two jn req.bhkType
    exact leadsPost_created_of_valid smc smd scv np jn lid sOk req m _ hms hm hb hp
  · intro hbhk hp
    have hb : normalizeBhkPreference jn req.bhk req.bhkType
        = some ⟨"Yet to decide", none⟩ := by
      rcases hbhk with h1 | ⟨h1, t, h2, h3⟩
      · rw [h1]; exact normalizeBhk_num_zero jn req.bhkType
      · rw [h1, h2]; exact normalizeBhk_yettodecide jn t h3
    have := leadsPost_created_of_valid smc smd scv np jn lid sOk req m _ hms hm hb hp
    exact ⟨this.1, this.2.1, this.2.2.1, this.2.2.2.2⟩
  · intro hb
    unfold leadsPost
    rw [hms]
    dsimp only
    rw [if_neg hm, hb]
  · intro e nb hb hp
    rw [leadsPost_badRequest_of_phone_error smc smd scv np jn lid sOk req m nb e
      hms hm hb hp]
    rfl

/-- Witness for C7 at the spec's concrete example: `bhkType:"2"`,
`phone:"9876543210"`, `microsite:"example.com"` (identity sanitizer, a
phone normalizer that accepts the number), and a concrete
"Yet to decide" request. -/
theorem leadsPost_bhk_contract_witness :
    ((leadsPost (fun x => x) id id
        (fun s => ⟨none, some s, none, none, none, none⟩) (fun _ => none) 7 true
        ⟨some "9876543210", .missing, some "2", some "example.com",
          .undefVal, .undefVal, .undefVal⟩).status = 201 ∧
      (leadsPost (fun x => x) id id
        (fun s => ⟨none, some s, none, none, none, none⟩) (fun _ => none) 7 true
        ⟨some "9876543210", .missing, some "2", some "example.com",
          .undefVal, .undefVal, .undefVal⟩).leadBhk = some (some 2) ∧
      (leadsPost (fun x => x) id id
        (fun s => ⟨none, some s, none, none, none, none⟩) (fun _ => none) 7 true
        ⟨some "9876543210", .missing, some "2", some "example.com",
          .undefVal, .undefVal, .undefVal⟩).leadBhkType = some "2 BHK" ∧
      (leadsPost (fun x => x) id id
        (fun s => ⟨none, some s, none, none, none, none⟩) (fun _ => none) 7 true
        ⟨some "9876543210", .missing, some "2", some "example.com",
          .undefVal, .undefVal, .undefVal⟩).eventType = some "lead_submitted" ∧
      (leadsPost (fun x => x) id id
        (fun s => ⟨none, some s, none, none, none, none⟩) (fun _ => none) 7 true
        ⟨some "9876543210", .missing, some "2", some "example.com",
          .undefVal, .undefVal, .undefVal⟩).eventPayloadBhk = some (some 2)) ∧
    ((leadsPost (fun x => x) id id
        (fun s => ⟨none, some s, none, none, none, none⟩) (fun _ => none) 7 true
        ⟨none, .missing, some "Yet to Decide", some "example.com",
          .undefVal, .undefVal, .undefVal⟩).status = 201 ∧
      (leadsPost (fun x => x) id id
        (fun s => ⟨none, some s, none, none, none, none⟩) (fun _ => none) 7 true
        ⟨none, .missing, some "Yet to Decide", some "example.com",
          .undefVal, .undefVal, .undefVal⟩).leadBhk = some none ∧
      (leadsPost (fun x => x) id id
        (fun s => ⟨none, some s, none, none, none, none⟩) (fun _ => none) 7 true
        ⟨none, .missing, some "Yet to Decide", some "example.com",
          .undefVal, .undefVal, .undefVal⟩).leadBhkType = some "Yet to decide" ∧
      (leadsPost (fun x => x) id id
        (fun s => ⟨none, some s, none, none, none, none⟩) (fun _ => none) 7 true
        ⟨none, .missing, some "Yet to Decide", some "example.com",
          .undefVal, .undefVal, .undefVal⟩).eventPayloadBhk = some none) ∧
    leadsPost (fun x => x) id id
        (fun s => ⟨none, some s, none, none, none, none⟩) (fun _ => none) 7 true
        ⟨none, .missing, none, some "example.com", .undefVal, .undefVal, .undefVal⟩
      = .badRequest "Invalid or missing BHK preference" ∧
    leadsPost (fun x => x) id id
        (fun s => ⟨none, some s, none, none, none, none⟩) (fun _ => none) 7 true
        ⟨none, .missing, some "penthouse", some "example.com",
          .undefVal, .undefVal, .undefVal⟩
      = .badRequest "Invalid or missing BHK preference" ∧
    (leadsPost (fun x => x) id id
        (fun _ => ⟨some "Invalid phone number", none, none, none, none, none⟩)
        (fun _ => none) 7 true
        ⟨some "abc", .missing, some "2", some "example.com",
          .undefVal, .undefVal, .undefVal⟩).status = 400 :=
  ⟨(leadsPost_bhk_contract (fun x => x) id id
      (fun s => ⟨none, some s, none, none, none, none⟩) (fun _ => none) 7 true
      ⟨some "9876543210", .missing, some "2", some "example.com",
        .undefVal, .undefVal, .undefVal⟩ "example.com" rfl (by decide)).1
      (Or.inl ⟨rfl, rfl⟩) rfl,
   (leadsPost_bhk_contract (fun x => x) id id
      (fun s => ⟨none, some s, none, none, none, none⟩) (fun _ => none) 7 true
      ⟨none, .missing, some "Yet to Decide", some "example.com",
        .undefVal, .undefVal, .undefVal⟩ "example.com" rfl (by decide)).2.1
      (Or.inr ⟨rfl, "Yet to Decide", rfl, by decide⟩) rfl,
   (leadsPost_bhk_contract (fun x => x) id id
      (fun s => ⟨none, some s, none, none, none, none⟩) (fun _ => none) 7 true
      ⟨none, .missing, none, some "example.com", .undefVal, .undefVal, .undefVal⟩
      "example.com" rfl (by decide)).2.2.1 rfl,
   (leadsPost_bhk_contract (fun x => x) id id
      (fun s => ⟨none, some s, none, none, none, none⟩) (fun _ => none) 7 true
      ⟨none, .missing, some "penthouse", some "example.com",
        .undefVal, .undefVal, .undefVal⟩
      "example.com" rfl (by decide)).2.2.1 rfl,
   (leadsPost_bhk_contract (fun x => x) id id
      (fun _ => ⟨some "Invalid phone number", none, none, none, none, none⟩)
      (fun _ => none) 7 true
      ⟨some "abc", .missing, some "2", some "example.com",
        .undefVal, .undefVal, .undefVal⟩
      "example.com" rfl (by decide)).2.2.2 "Invalid phone number"
      ⟨"2 BHK", some 2⟩ rfl rfl⟩

/-! ## C9 -/

/-- C9: with a shared secret configured (non-blank
`WIDGET_CONFIG_API_KEY`), `POST /api/widget-config/:projectId` answers
401 when the request carries neither an `X-API-Key` header nor an
`Authorization` header, 403 when the supplied key does not match the
configured key, and only a request whose extracted key matches reaches
the update handler, which stores and returns the updated config. -/
theorem widgetConfigPost_auth
    (xApiKey authorization envKey : Option String)
    (store : String → Json → Json) (projectId : String) (body : Json)
    (hconf : jsTrim (envKey.getD "") ≠ "") :
    (xApiKey = none → authorization = none →
      widgetConfigPost xApiKey authorization envKey store projectId body
        = .unauthorized401) ∧
    (extractedApiKey xApiKey authorization ≠ "" →
      extractedApiKey xApiKey authorization ≠ jsTrim (envKey.getD "") →
      widgetConfigPost xApiKey authorization envKey store projectId body
        = .forbidden403) ∧
    (extractedApiKey xApiKey authorization = jsTrim (envKey.getD "") →
      widgetConfigPost xApiKey authorization envKey store projectId body
        = .ok (store projectId body)) ∧
    (∀ cfg,
      widgetConfigPost xApiKey authorization envKey store projectId body = .ok cfg →
      extractedApiKey xApiKey authorization = jsTrim (envKey.getD "") ∧
      cfg = store projectId body) := by
  refine ⟨?_, ?_, ?_, ?_⟩
  · intro hx ha
    have hkey : extractedApiKey xApiKey authorization = "" := by
      rw [hx, ha]; rfl
    unfold widgetConfigPost requireApiKeyDecision
    rw [if_neg hconf, if_pos hkey]
  · intro hne hmis
    unfold widgetConfigPost requireApiKeyDecision
    rw [if_neg hconf, if_neg hne, if_pos hmis]
  · intro hmatch
    have hne : extractedApiKey xApiKey authorization ≠ "" := by
      rw [hmatch]; exact hconf
    unfold widgetConfigPost requireApiKeyDecision
    rw [if_neg hconf, if_neg hne, if_neg (by simp [hmatch])]
  · intro cfg hok
    unfold widgetConfigPost requireApiKeyDecision at hok
    rw [if_neg hconf] at hok
    by_cases hne : extractedApiKey xApiKey authorization = ""
    · rw [if_pos hne] at hok; cases hok
    · rw [if_neg hne] at hok
      by_cases hmis : extractedApiKey xApiKey authorization ≠ jsTrim (envKey.getD "")
      · rw [if_pos hmis] at hok; cases hok
      · rw [if_neg hmis] at hok
        cases hok
        exact ⟨not_not.mp hmis, rfl⟩

/-- Witness for C9: `envKey = "sekret"`; a key-less request is 401, a
wrong key is 403, the matching key (also via `Authorization: Bearer`)
reaches the handler. -/
theorem widgetConfigPost_auth_witness :
    widgetConfigPost none none (some "sekret") (fun _ b => b) "default" (.obj .nil)
      = .unauthorized401 ∧
    widgetConfigPost (some "wrong") none (some "sekret") (fun _ b => b) "default"
        (.obj .nil) = .forbidden403 ∧
    widgetConfigPost none (some "Bearer sekret") (some "sekret") (fun _ b => b)
        "default" (.obj .nil) = .ok (.obj .nil) :=
  ⟨(widgetConfigPost_auth none none (some "sekret") (fun _ b => b) "default"
      (.obj .nil) (by decide)).1 rfl rfl,
   (widgetConfigPost_auth (some "wrong") none (some "sekret") (fun _ b => b)
      "default" (.obj .nil) (by decide)).2.1 (by decide) (by decide),
   (widgetConfigPost_auth none (some "Bearer sekret") (some "sekret")
      (fun _ b => b) "default" (.obj .nil) (by decide)).2.2.1 (by decide)⟩
